/-
Verification of the ArtNet receiver core of `driver_addon/sys_artnet_in.py`
(a Blender add-on that receives Art-Net DMX frames over UDP and exposes the
latest per-channel values to driver expressions).

Shallow embedding conventions:
* Python `bytearray` / `bytes` objects become `List Nat` (each entry a byte
  value; the code only ever stores bytes coming from `bytes` objects, so the
  entries are < 256 by construction of the inputs, which the theorems state
  explicitly where it matters).
* Python slicing `data[a:b]` becomes `(data.drop a).take (b - a)`;
  `data[a:]` becomes `data.drop a`.
* The in-place mutation of the channel `bytearray` becomes explicit state
  passing: `handle_data` returns the updated buffer together with the new
  status string.
* Python indexing `buf[i]` with an `int` index (which supports negative
  indices and raises `IndexError` out of range) becomes `pyGetItem`,
  returning `Except String Nat`.
* `socket.close()` on an already-closed CPython socket and
  `threading.Thread.join(timeout)` never raise, so the embedded `close`
  operations are total and return `Except.ok` on every path.
-/
import Mathlib

/-- One byte of channel data (the code only ever stores values 0..255; we use
`Nat` and keep the range information in the inputs). -/
abbrev Byte := Nat

/-- Embeds `Receiver._build_data_header`:
`bytearray((artnet_universe & 0xFF, artnet_universe >> 8 & 0xFF, 0x02, 0x00))`. -/
def build_data_header (artnet_universe : Nat) : List Byte :=
  [artnet_universe % 256, (artnet_universe / 256) % 256, 0x02, 0x00]

/-- Embeds `Receiver._build_artnet_header`:
`bytearray(map(ord, "Art-Net"))` + `0x00` (null terminator) + `[0x00, 0x50]`
(opcode) + `[0x00, 0x0e]` (protocol version 14) + `(frame_number, 0x00)` with
`frame_number = 0x00`.  The result is 14 bytes long. -/
def build_artnet_header : List Byte :=
  ("Art-Net".data.map Char.toNat) ++ [0x00] ++ [0x00, 0x50] ++ [0x00, 0x0e]
    ++ [0x00, 0x00]

/-- The mutable per-instance state of class `Receiver` (socket handle modelled
as an `Option` of an open/closed flag; the thread fields of the subclass live
in `MultithreadReceiver`). -/
structure Receiver where
  sock : Option Bool          -- `some b`: a socket exists, `b` = still open
  udp_ip : String
  udp_port : Nat
  artnet_universe : Nat
  artnet_header : List Byte   -- `self._artnet_header`
  data_header : List Byte     -- `self._data_header`
  channels : List Byte        -- `self._channels` (the channel bytearray)
  do_receive : Bool
  status : String

/-- Embeds `Receiver.__init__` (given an explicit `channel_buffer` argument;
the shared default-argument object is modelled separately below for the
ownership analysis). -/
def Receiver.init (udp_ip : String) (udp_port : Nat) (artnet_universe : Nat)
    (channel_buffer : List Byte) : Receiver :=
  { sock := none
    udp_ip := udp_ip
    udp_port := udp_port
    artnet_universe := artnet_universe
    artnet_header := build_artnet_header
    data_header := build_data_header artnet_universe
    channels := channel_buffer
    do_receive := false
    status := "Inactive" }

/-- The default `channel_buffer` value: `bytearray((0x00,) * 512)`. -/
def default_channel_buffer : List Byte := List.replicate 512 0

/-- Embeds `Receiver.copy_channels_to_buffer`: element-wise assignment
`channels_out_buffer[i] = channels[i]` for `i in range(copy_length)` with
`copy_length = min(len(channels_out_buffer), len(channels))`. -/
def copy_channels_to_buffer (channels channels_out_buffer : List Byte) :
    List Byte :=
  let received_channel_length := channels.length
  let max_acceptable_channel_length := channels_out_buffer.length
  let copy_length :=
    min max_acceptable_channel_length received_channel_length
  (List.range copy_length).foldl
    (fun buf i => buf.set i (channels.getD i 0)) channels_out_buffer

/-- Embeds `Receiver.handle_data`: compares `data[0:12]` with the stored
header's first 12 bytes, then `data[14:18]` with the stored universe
sub-header (skipping the frame counter `data[12:14]`), and on success copies
`data[18:]` into the channel buffer.  Returns the updated buffer and the new
value of `self.status`. -/
def handle_data (r : Receiver) (channel_buffer data : List Byte) :
    List Byte × String :=
  let header_base := data.take 12
  let expected_header_base := r.artnet_header.take 12
  if header_base = expected_header_base then
    let data_header := (data.drop 14).take 4
    if data_header = r.data_header then
      let channels := data.drop 18
      (copy_channels_to_buffer channels channel_buffer,
        "Receiving " ++ toString channels.length ++ " Channels")
    else
      (channel_buffer, "Invalid Data")
  else
    (channel_buffer, "Invalid Data")

/-- Python item access `buf[i]` on a sequence with an `int` index: a
non-negative index must be `< len`, a negative index counts from the end
(`buf[i]` is `buf[len + i]` for `-len ≤ i < 0`), anything else raises
`IndexError`. -/
def pyGetItem (buf : List Byte) (i : Int) : Except String Byte :=
  if 0 ≤ i ∧ i < (buf.length : Int) then
    .ok (buf.getD i.toNat 0)
  else if -(buf.length : Int) ≤ i ∧ i < 0 then
    .ok (buf.getD (i + buf.length).toNat 0)
  else
    .error "IndexError"

/-- Embeds `Receiver.get_channel`: `return self._channels[channel]`
(raw Python indexing, so it can raise `IndexError`). -/
def Receiver.get_channel (r : Receiver) (channel : Int) : Except String Byte :=
  pyGetItem r.channels channel

/-- Embeds `Receiver.get_channels`: `return self._channels`. -/
def Receiver.get_channels (r : Receiver) : List Byte :=
  r.channels

/-- Embeds `Receiver.close`: `if self.sock: self.sock.close()` then
`self.status = "Inactive"`.  A CPython socket object is always truthy and
`close()` on it never raises (closing twice is a no-op), so every path
returns `Except.ok`. -/
def Receiver.close (r : Receiver) : Except String Receiver :=
  let r :=
    match r.sock with
    | some _ => { r with sock := some false }
    | none => r
  .ok { r with status := "Inactive" }

/-- The extra state of class `MultithreadReceiver` on top of `Receiver`:
`self._thread` (present after `open`) and `self.stop_event` (set flag). -/
structure MultithreadReceiver where
  toReceiver : Receiver
  thread : Option Unit
  stop_event : Bool

/-- Embeds `MultithreadReceiver.__init__` with an explicit buffer. -/
def MultithreadReceiver.init (udp_ip : String) (udp_port : Nat)
    (artnet_universe : Nat) (channel_buffer : List Byte) :
    MultithreadReceiver :=
  { toReceiver := Receiver.init udp_ip udp_port artnet_universe channel_buffer
    thread := none
    stop_event := false }

/-- Embeds `MultithreadReceiver.close`: clear `do_receive`, set the stop
event, `if self._thread: self._thread.join(3)` (a bounded `join` always
returns without raising), then `super().close()`. -/
def MultithreadReceiver.close (m : MultithreadReceiver) :
    Except String MultithreadReceiver := do
  let m := { m with
    toReceiver := { m.toReceiver with do_receive := false }
    stop_event := true }
  let r ← m.toReceiver.close
  .ok { m with toReceiver := r }

/-- The module-level singleton `receiver = MultithreadReceiver()` (using the
default arguments of `MultithreadReceiver.__init__`). -/
def module_receiver : MultithreadReceiver :=
  MultithreadReceiver.init "127.0.0.1" 6454 0 default_channel_buffer

/-- Embeds `get_dmx_channel`: `if receiver:` (a constructed instance is
always truthy) then `receiver.get_channel(channel)`, else `0`.  The module
always holds an instance, so the argument is `some` in every reachable
state; we keep the truthiness branch for faithfulness. -/
def get_dmx_channel (receiver : Option MultithreadReceiver) (channel : Int) :
    Except String Byte :=
  match receiver with
  | some r => r.toReceiver.get_channel channel
  | none => .ok 0

example : build_artnet_header =
    [65, 114, 116, 45, 78, 101, 116, 0, 0, 0x50, 0, 0x0e, 0, 0] := by decide

example : build_data_header 3 = [3, 0, 2, 0] := by decide

example : pyGetItem [10, 20, 30] (-1) = .ok 30 := by rfl

example : pyGetItem [10, 20, 30] 3 = .error "IndexError" := by rfl

example : copy_channels_to_buffer [7, 8] [1, 2, 3, 4] = [7, 8, 3, 4] := by
  decide

/-- The element-wise copy loop of `copy_channels_to_buffer`, run for `n`
steps with `n` within both lengths, replaces the first `n` buffer entries by
the first `n` payload entries and keeps the rest. -/
theorem foldl_set_range_eq (channels : List Byte) :
    ∀ (n : Nat) (buf : List Byte), n ≤ buf.length → n ≤ channels.length →
      (List.range n).foldl (fun buf i => buf.set i (channels.getD i 0)) buf
        = channels.take n ++ buf.drop n := by
  intro n
  induction n with
  | zero => intro buf _ _; simp
  | succ k ih =>
    intro buf hb hc
    rw [List.range_succ, List.foldl_append]
    rw [ih buf (by omega) (by omega)]
    simp only [List.foldl_cons, List.foldl_nil]
    have hlen : (channels.take k).length = k := by
      rw [List.length_take]; omega
    have hklt : k < (channels.take k ++ buf.drop k).length := by
      rw [List.length_append, List.length_drop, hlen]; omega
    rw [List.set_eq_take_cons_drop _ hklt]
    have h1 : (channels.take k ++ buf.drop k).take k = channels.take k := by
      rw [List.take_append_of_le_length (by omega), List.take_take]
      simp
    have h2 : (channels.take k ++ buf.drop k).drop (k + 1)
        = buf.drop (k + 1) := by
      rw [show k + 1 = (channels.take k).length + 1 by omega,
        List.drop_append, List.drop_drop, hlen]
    have h3 : channels.take k ++ [channels.getD k 0] = channels.take (k + 1) := by
      rw [List.getD_eq_getElem _ _ (by omega), ← List.concat_eq_append]
      exact List.take_concat_get channels k (by omega)
    rw [h1, h2, ← h3, List.append_assoc, List.singleton_append]

/-- `copy_channels_to_buffer` equals truncate-payload-then-keep-tail:
the first `min (len buf) (len payload)` entries become the payload's prefix,
the remaining entries of the buffer are untouched. -/
theorem copy_channels_to_buffer_eq (channels buf : List Byte) :
    copy_channels_to_buffer channels buf
      = channels.take (min buf.length channels.length)
        ++ buf.drop (min buf.length channels.length) := by
  unfold copy_channels_to_buffer
  exact foldl_set_range_eq channels _ buf (Nat.min_le_left _ _)
    (Nat.min_le_right _ _)

/-- Pointwise reading of `copy_channels_to_buffer`: entry `i` is the
payload's entry for `i` below the copied length, and the old buffer entry
otherwise. -/
theorem copy_channels_to_buffer_getD (channels buf : List Byte) (i : Nat) :
    (copy_channels_to_buffer channels buf).getD i 0
      = if i < min buf.length channels.length then channels.getD i 0
        else buf.getD i 0 := by
  rw [copy_channels_to_buffer_eq]
  by_cases h : i < min buf.length channels.length
  · rw [if_pos h, List.getD_eq_getElem?_getD, List.getD_eq_getElem?_getD,
      List.getElem?_append_left (by rw [List.length_take]; omega),
      List.getElem?_take, if_pos (by omega)]
  · rw [if_neg h, List.getD_eq_getElem?_getD, List.getD_eq_getElem?_getD,
      List.getElem?_append_right (by rw [List.length_take]; omega),
      List.getElem?_drop, List.length_take,
      Nat.min_eq_left (Nat.min_le_right _ _),
      Nat.add_sub_cancel' (Nat.le_of_not_lt h)]

/-- **C6**: the buffer-write operation copies exactly
`min (len payload) 512` bytes to the front of a 512-entry buffer, keeps
every entry at an index `≥ len payload` when the payload is shorter, and
when the payload is longer copies only the first 512 bytes, the buffer
length staying 512 (no out-of-bounds access). -/
theorem claim_C6_copy_write (payload buf : List Byte)
    (hbuf : buf.length = 512) :
    (copy_channels_to_buffer payload buf).length = 512 ∧
      (∀ i, i < min payload.length 512 →
        (copy_channels_to_buffer payload buf).getD i 0 = payload.getD i 0) ∧
      (∀ i, payload.length ≤ i →
        (copy_channels_to_buffer payload buf).getD i 0 = buf.getD i 0) := by
  refine ⟨?_, ?_, ?_⟩
  · rw [copy_channels_to_buffer_eq, List.length_append, List.length_take,
      List.length_drop]
    omega
  · intro i hi
    rw [copy_channels_to_buffer_getD, if_pos (by omega)]
  · intro i hi
    rw [copy_channels_to_buffer_getD, if_neg (by omega)]

/-- Witness for `claim_C6_copy_write` at payload `[1, 2, 3]` and the default
512-zero buffer. -/
theorem claim_C6_copy_write_witness :
    (copy_channels_to_buffer [1, 2, 3] default_channel_buffer).length = 512 ∧
      (∀ i, i < min ([1, 2, 3] : List Byte).length 512 →
        (copy_channels_to_buffer [1, 2, 3] default_channel_buffer).getD i 0
          = ([1, 2, 3] : List Byte).getD i 0) ∧
      (∀ i, ([1, 2, 3] : List Byte).length ≤ i →
        (copy_channels_to_buffer [1, 2, 3] default_channel_buffer).getD i 0
          = default_channel_buffer.getD i 0) :=
  claim_C6_copy_write [1, 2, 3] default_channel_buffer
    (by rw [default_channel_buffer, List.length_replicate])

/-- `Receiver.init` stores the protocol header template built by
`build_artnet_header`. -/
theorem Receiver.init_artnet_header (ip : String) (port U : Nat)
    (buf : List Byte) :
    (Receiver.init ip port U buf).artnet_header = build_artnet_header := rfl

/-- `Receiver.init` stores the universe sub-header built by
`build_data_header` for the configured universe. -/
theorem Receiver.init_data_header (ip : String) (port U : Nat)
    (buf : List Byte) :
    (Receiver.init ip port U buf).data_header = build_data_header U := rfl

/-- Unfolding of `handle_data` with its local variables inlined. -/
theorem handle_data_eq (r : Receiver) (channel_buffer data : List Byte) :
    handle_data r channel_buffer data
      = if data.take 12 = r.artnet_header.take 12 then
          if (data.drop 14).take 4 = r.data_header then
            (copy_channels_to_buffer (data.drop 18) channel_buffer,
              "Receiving " ++ toString (data.drop 18).length ++ " Channels")
          else (channel_buffer, "Invalid Data")
        else (channel_buffer, "Invalid Data") := rfl

/-- **C1**: a frame built as protocol-header ++ universe-header(U) ++ P,
handled by a receiver configured for the same universe U, passes validation,
copies P to the front of the channel buffer (the remaining entries keeping
their old values) and sets the status to `Receiving len(P) Channels`. -/
theorem claim_C1_roundtrip (ip : String) (port U : Nat) (P buf : List Byte)
    (hU : U ≤ 32767) (hP : P.length ≤ 512) (hbuf : buf.length = 512) :
    handle_data (Receiver.init ip port U buf) buf
        (build_artnet_header ++ build_data_header U ++ P)
      = (P ++ buf.drop P.length,
        "Receiving " ++ toString P.length ++ " Channels") := by
  have hH : build_artnet_header.length = 14 := by decide
  have hD : (build_data_header U).length = 4 := rfl
  have h1 : (build_artnet_header ++ build_data_header U ++ P).take 12
      = build_artnet_header.take 12 := by
    rw [List.append_assoc, List.take_append_of_le_length (by omega)]
  have h2 : ((build_artnet_header ++ build_data_header U ++ P).drop 14).take 4
      = build_data_header U := by
    rw [List.append_assoc, show (14 : Nat) = build_artnet_header.length by omega,
      List.drop_left, show (4 : Nat) = (build_data_header U).length by omega,
      List.take_left]
  have h3 : (build_artnet_header ++ build_data_header U ++ P).drop 18 = P := by
    rw [show (18 : Nat)
        = (build_artnet_header ++ build_data_header U).length by
        rw [List.length_append]; omega,
      List.drop_left]
  rw [handle_data_eq, Receiver.init_artnet_header, Receiver.init_data_header,
    h1, if_pos rfl, h2, if_pos rfl, h3, copy_channels_to_buffer_eq, hbuf,
    Nat.min_eq_right hP, List.take_length]

/-- Witness for `claim_C1_roundtrip`: universe 3, payload `[10, 20, 30]`,
the default 512-zero buffer. -/
theorem claim_C1_roundtrip_witness :
    handle_data (Receiver.init "127.0.0.1" 6454 3 default_channel_buffer)
        default_channel_buffer
        (build_artnet_header ++ build_data_header 3 ++ [10, 20, 30])
      = ([10, 20, 30]
            ++ default_channel_buffer.drop ([10, 20, 30] : List Byte).length,
          "Receiving " ++ toString ([10, 20, 30] : List Byte).length
            ++ " Channels") :=
  claim_C1_roundtrip "127.0.0.1" 6454 3 [10, 20, 30] default_channel_buffer
    (by decide) (by decide)
    (by rw [default_channel_buffer, List.length_replicate])

/-- **C3** counterexample: the bytes at offsets 10 and 11 of the constant
protocol header are not `0x0e` then `0x00`; the code writes the
protocol-version field high byte first. -/
theorem claim_C3_counterexample :
    ¬ (build_artnet_header.getD 10 0 = 0x0e ∧
        build_artnet_header.getD 11 0 = 0x00) := by decide

/-- **C3** (amended): the constant protocol header encodes the
protocol-version field 0x000e big-endian at offsets 10-11: the byte at
offset 10 is 0x00 and the byte at offset 11 is 0x0e, both in the full
header and in its 12-byte validation slice. -/
theorem claim_C3_version_bytes :
    build_artnet_header.getD 10 0 = 0x00 ∧
      build_artnet_header.getD 11 0 = 0x0e ∧
      (build_artnet_header.take 12).getD 10 0 = 0x00 ∧
      (build_artnet_header.take 12).getD 11 0 = 0x0e := by decide

/-- **C4**: any frame shorter than 18 bytes, or whose first 12 bytes differ
from the expected protocol header, is rejected: the channel buffer is
returned unchanged and the status becomes `Invalid Data`, regardless of the
remaining content. -/
theorem claim_C4_header_mismatch (ip : String) (port U : Nat)
    (buf data : List Byte)
    (h : data.length < 18 ∨ data.take 12 ≠ build_artnet_header.take 12) :
    handle_data (Receiver.init ip port U buf) buf data
      = (buf, "Invalid Data") := by
  rw [handle_data_eq, Receiver.init_artnet_header, Receiver.init_data_header]
  by_cases hh : data.take 12 = build_artnet_header.take 12
  · rw [if_pos hh]
    have hlen : data.length < 18 := by
      rcases h with h | h
      · exact h
      · exact absurd hh h
    have hne : (data.drop 14).take 4 ≠ build_data_header U := by
      intro heq
      have hl := congrArg List.length heq
      rw [List.length_take, List.length_drop] at hl
      have hD : (build_data_header U).length = 4 := rfl
      omega
    rw [if_neg hne]
  · rw [if_neg hh]

/-- Witness for `claim_C4_header_mismatch`: the empty frame. -/
theorem claim_C4_header_mismatch_witness :
    handle_data (Receiver.init "127.0.0.1" 6454 0 default_channel_buffer)
        default_channel_buffer []
      = (default_channel_buffer, "Invalid Data") :=
  claim_C4_header_mismatch "127.0.0.1" 6454 0 default_channel_buffer []
    (Or.inl (by decide))

/-- **C5**: a frame whose first 12 bytes match the protocol header but whose
bytes 14..18 differ from the configured universe sub-header (bytes 12..14
being ignored) leaves every channel value unchanged and sets the status to
`Invalid Data`. -/
theorem claim_C5_universe_mismatch (ip : String) (port U : Nat)
    (buf data : List Byte)
    (h12 : data.take 12 = build_artnet_header.take 12)
    (hsub : (data.drop 14).take 4 ≠ build_data_header U) :
    handle_data (Receiver.init ip port U buf) buf data
      = (buf, "Invalid Data") := by
  rw [handle_data_eq, Receiver.init_artnet_header, Receiver.init_data_header,
    if_pos h12, if_neg hsub]

/-- Witness for `claim_C5_universe_mismatch`: a frame carrying
universe-header(7) sent to a receiver configured for universe 3. -/
theorem claim_C5_universe_mismatch_witness :
    handle_data (Receiver.init "127.0.0.1" 6454 3 default_channel_buffer)
        default_channel_buffer
        (build_artnet_header ++ build_data_header 7 ++ [1, 2, 3])
      = (default_channel_buffer, "Invalid Data") :=
  claim_C5_universe_mismatch "127.0.0.1" 6454 3 default_channel_buffer
    (build_artnet_header ++ build_data_header 7 ++ [1, 2, 3])
    (by decide) (by decide)

/-- Every entry of the default 512-zero buffer reads as 0 (also through the
`getD` default). -/
theorem default_channel_buffer_getD (j : Nat) :
    default_channel_buffer.getD j 0 = 0 := by
  rw [default_channel_buffer, List.getD_eq_getElem?_getD,
    List.getElem?_replicate]
  split <;> rfl

/-- Python indexing on a 512-entry buffer, non-negative in-range index. -/
theorem pyGetItem_nonneg (buf : List Byte) (c : Int)
    (hlen : buf.length = 512) (h0 : 0 ≤ c) (h2 : c < 512) :
    pyGetItem buf c = .ok (buf.getD c.toNat 0) := by
  unfold pyGetItem
  rw [hlen, if_pos ⟨h0, by omega⟩]

/-- Python indexing on a 512-entry buffer, negative in-range index: the
access wraps to `c + 512`. -/
theorem pyGetItem_neg (buf : List Byte) (c : Int)
    (hlen : buf.length = 512) (h1 : -512 ≤ c) (h2 : c < 0) :
    pyGetItem buf c = .ok (buf.getD (c + 512).toNat 0) := by
  unfold pyGetItem
  rw [hlen, if_neg (by omega), if_pos ⟨by omega, h2⟩]
  norm_num

/-- Python indexing on a 512-entry buffer, out-of-range index: raises
`IndexError`. -/
theorem pyGetItem_oob (buf : List Byte) (c : Int)
    (hlen : buf.length = 512) (h : c < -512 ∨ 512 ≤ c) :
    pyGetItem buf c = .error "IndexError" := by
  unfold pyGetItem
  rw [hlen, if_neg (by omega), if_neg (by omega)]

/-- **C7**: on a freshly constructed receiver (zero-initialized buffer,
before any write), reading channel `i` fails with `IndexError` (the
out-of-range outcome) for every `i ≥ 512`, and returns 0 for every
`i < 512`. -/
theorem claim_C7_read_bounds (ip : String) (port U : Nat) (i : Nat) :
    (512 ≤ i →
      (Receiver.init ip port U default_channel_buffer).get_channel (i : Int)
        = .error "IndexError") ∧
      (i < 512 →
        (Receiver.init ip port U default_channel_buffer).get_channel (i : Int)
          = .ok 0) := by
  have hlen : default_channel_buffer.length = 512 := by
    rw [default_channel_buffer, List.length_replicate]
  constructor
  · intro h
    show pyGetItem default_channel_buffer (i : Int) = _
    exact pyGetItem_oob _ _ hlen (Or.inr (by omega))
  · intro h
    show pyGetItem default_channel_buffer (i : Int) = _
    rw [pyGetItem_nonneg _ _ hlen (by omega) (by omega), Int.toNat_natCast,
      default_channel_buffer_getD]

/-- Witness for `claim_C7_read_bounds` at indices 600 (failing) and 5
(returning 0). -/
theorem claim_C7_read_bounds_witness :
    (Receiver.init "127.0.0.1" 6454 0 default_channel_buffer).get_channel
        ((600 : Nat) : Int) = .error "IndexError" ∧
      (Receiver.init "127.0.0.1" 6454 0 default_channel_buffer).get_channel
        ((5 : Nat) : Int) = .ok 0 :=
  ⟨(claim_C7_read_bounds "127.0.0.1" 6454 0 600).1 (by decide),
    (claim_C7_read_bounds "127.0.0.1" 6454 0 5).2 (by decide)⟩

/-- **C2** counterexample: the consumer-facing accessor `get_dmx_channel`
does fail for index 512 — it raises `IndexError` instead of returning a
value. -/
theorem claim_C2_counterexample :
    get_dmx_channel (some module_receiver) 512 = .error "IndexError" := by
  show pyGetItem default_channel_buffer 512 = _
  exact pyGetItem_oob _ _
    (by rw [default_channel_buffer, List.length_replicate]) (Or.inr le_rfl)

/-- **C2** (amended): for every index argument in the range -512..511 the
consumer-facing accessor does not fail — it returns the stored value at the
(Python-wrapped) position, which is 0 whenever the receiver has never been
opened (the buffer still holds its construction-time zeros); for an index
outside that range it raises `IndexError` rather than degrading to a
value. -/
theorem claim_C2_accessor (m : MultithreadReceiver) (c : Int)
    (hlen : m.toReceiver.channels.length = 512) :
    (0 ≤ c → c < 512 →
      get_dmx_channel (some m) c
        = .ok (m.toReceiver.channels.getD c.toNat 0)) ∧
      (-512 ≤ c → c < 0 →
        get_dmx_channel (some m) c
          = .ok (m.toReceiver.channels.getD (c + 512).toNat 0)) ∧
      ((c < -512 ∨ 512 ≤ c) →
        get_dmx_channel (some m) c = .error "IndexError") ∧
      (m.toReceiver.channels = default_channel_buffer →
        -512 ≤ c → c < 512 → get_dmx_channel (some m) c = .ok 0) := by
  refine ⟨?_, ?_, ?_, ?_⟩
  · intro h0 h2
    exact pyGetItem_nonneg _ _ hlen h0 h2
  · intro h1 h2
    show pyGetItem m.toReceiver.channels c = _
    rw [pyGetItem_neg _ _ hlen h1 h2]
  · intro h
    exact pyGetItem_oob _ _ hlen h
  · intro hdef h1 h2
    show pyGetItem m.toReceiver.channels c = _
    rcases Int.lt_or_le c 0 with h0 | h0
    · rw [pyGetItem_neg _ _ hlen h1 h0, hdef, default_channel_buffer_getD]
    · rw [pyGetItem_nonneg _ _ hlen h0 h2, hdef, default_channel_buffer_getD]

/-- Witness for `claim_C2_accessor` at the module singleton and index 5. -/
theorem claim_C2_accessor_witness :
    (0 ≤ (5 : Int) → (5 : Int) < 512 →
      get_dmx_channel (some module_receiver) 5
        = .ok (module_receiver.toReceiver.channels.getD (5 : Int).toNat 0)) ∧
      (-512 ≤ (5 : Int) → (5 : Int) < 0 →
        get_dmx_channel (some module_receiver) 5
          = .ok (module_receiver.toReceiver.channels.getD
              ((5 : Int) + 512).toNat 0)) ∧
      (((5 : Int) < -512 ∨ 512 ≤ (5 : Int)) →
        get_dmx_channel (some module_receiver) 5 = .error "IndexError") ∧
      (module_receiver.toReceiver.channels = default_channel_buffer →
        -512 ≤ (5 : Int) → (5 : Int) < 512 →
        get_dmx_channel (some module_receiver) 5 = .ok 0) :=
  claim_C2_accessor module_receiver 5
    (by rw [show module_receiver.toReceiver.channels = default_channel_buffer
        from rfl, default_channel_buffer, List.length_replicate])

/-- **C10**: for every integer index c with -512 ≤ c ≤ -1, the accessor
does not fail: Python negative indexing wraps, returning the value stored
at buffer index 512 + c. -/
theorem claim_C10_negative_index (m : MultithreadReceiver) (c : Int)
    (hlen : m.toReceiver.channels.length = 512)
    (h1 : -512 ≤ c) (h2 : c ≤ -1) :
    get_dmx_channel (some m) c
      = .ok (m.toReceiver.channels.getD (c + 512).toNat 0) := by
  show pyGetItem m.toReceiver.channels c = _
  rw [pyGetItem_neg _ _ hlen h1 (by omega)]

/-- Witness for `claim_C10_negative_index` at index -1 (aliasing channel
511). -/
theorem claim_C10_negative_index_witness :
    get_dmx_channel (some module_receiver) (-1)
      = .ok (module_receiver.toReceiver.channels.getD
          ((-1 : Int) + 512).toNat 0) :=
  claim_C10_negative_index module_receiver (-1)
    (by rw [show module_receiver.toReceiver.channels = default_channel_buffer
        from rfl, default_channel_buffer, List.length_replicate])
    (by decide) (by decide)

/-- **C8**: `MultithreadReceiver.close` never errors and always leaves the
status `Inactive`, from every state — in particular on a never-opened
receiver (no socket, no thread) and when called twice in succession. -/
theorem claim_C8_close_safe (m : MultithreadReceiver) :
    ∃ m1, m.close = Except.ok m1 ∧ m1.toReceiver.status = "Inactive" ∧
      ∃ m2, m1.close = Except.ok m2 ∧ m2.toReceiver.status = "Inactive" :=
  ⟨_, rfl, rfl, _, rfl, rfl⟩

/-- **C9** model: a heap of allocated bytearray objects addressed by
reference id, tracking object identity of channel buffers.  Python
evaluates a function's default argument once, when the `def` is executed,
so `Receiver.__init__` owns a single default `bytearray((0x00,) * 512)`
object shared by every construction that omits `channel_buffer`. -/
structure Heap where
  bufs : Nat → List Byte
  next : Nat

/-- Reference id of the default-argument bytearray of
`Receiver.__init__`. -/
def receiver_default_buf_ref : Nat := 0

/-- Reference id of the default-argument bytearray of
`MultithreadReceiver.__init__` (its own `def` evaluates its own default). -/
def multithread_default_buf_ref : Nat := 1

/-- The heap after the module body has run: the default-argument bytearrays
exist and hold 512 zero bytes each. -/
def module_heap : Heap :=
  { bufs := fun _ => default_channel_buffer, next := 2 }

/-- A `Receiver` instance as seen through object identity: it stores a
reference to its channel bytearray, not a copy of its contents. -/
structure ReceiverObj where
  channels_ref : Nat
  artnet_header : List Byte
  data_header : List Byte

/-- `Receiver(...)` with the `channel_buffer` argument omitted: the new
instance stores a reference to the one default-argument object. -/
def receiver_obj_default (udp_ip : String) (udp_port U : Nat) :
    ReceiverObj :=
  { channels_ref := receiver_default_buf_ref
    artnet_header := build_artnet_header
    data_header := build_data_header U }

/-- A successful frame write through an instance mutates, in place, the
bytearray object the instance references
(`copy_channels_to_buffer(channels, channel_buffer)`). -/
def Heap.write_channels (h : Heap) (r : ReceiverObj) (payload : List Byte) :
    Heap :=
  { h with bufs := fun ref =>
      if ref = r.channels_ref then
        copy_channels_to_buffer payload (h.bufs ref)
      else h.bufs ref }

/-- `get_channel` through an instance reads the referenced bytearray. -/
def ReceiverObj.get_channel (r : ReceiverObj) (h : Heap) (i : Int) :
    Except String Byte :=
  pyGetItem (h.bufs r.channels_ref) i

set_option maxRecDepth 20000 in
/-- **C9** fails on the code: two separately constructed `Receiver()`
instances that omit the `channel_buffer` argument share one bytearray
object, because Python evaluated the default argument once.  Writing the
payload `[7]` through the first instance changes what the second instance
reads at channel 0 from 0 to 7. -/
theorem claim_C9_shared_default_buffer :
    (receiver_obj_default "127.0.0.1" 6454 0).channels_ref
        = (receiver_obj_default "10.0.0.1" 6455 0).channels_ref ∧
      (receiver_obj_default "10.0.0.1" 6455 0).get_channel module_heap 0
        = .ok 0 ∧
      (receiver_obj_default "10.0.0.1" 6455 0).get_channel
          (module_heap.write_channels
            (receiver_obj_default "127.0.0.1" 6454 0) [7]) 0
        = .ok 7 :=
  ⟨rfl, rfl, rfl⟩
